import Mathlib

/-!
Verification of the ai-bridge watcher/task-exchange repository.

This file shallowly embeds the three Python source files:

* `oracle_task_manager.py` — the Task Exchange Client (`OracleTaskManager`):
  `ask_ai` writes a task file, pushes it, then polls the `results/` directory
  (pull, check for `result_<id>.json`, sleep 5 s) until a result appears or
  elapsed time reaches `timeout`.
* `autonomous_watcher_linux_OLD.py` — the Process Supervisor (`MicrobotRunner`),
  the Issue Detector (`IssueDetector`) and the Orchestration Loop
  (`AutonomousWatcher.run`).
* `test_responder.py` — the Remote Responder loop: for each task file, write
  the matching result file, then delete the task file.

Modelling conventions: the local `results/` directory is an association list
from file name to parsed JSON object; a `git pull` at poll `k` merges a batch
`arr k` of remotely arrived files into the local store; wall-clock time is in
whole seconds and each poll iteration advances it by the 5-second sleep
(`time.sleep(5)`); subprocess outcomes (git push success, whether the
supervised process exits within the grace window) are boolean parameters.
-/

/-- JSON object with string-valued fields, as parsed by `json.load`.  Keys are
assumed unique (Python's parser keeps one binding per key). -/
structure JsonObj where
  fields : List (String × String)
deriving DecidableEq

/-- Association-list lookup, first binding wins (keys are unique). -/
def alookup {β : Type} : List (String × β) → String → Option β
  | [], _ => none
  | (k, v) :: rest, key => if k = key then some v else alookup rest key

/-- Embedding of Python's `dict.get(key, dflt)` on a parsed JSON object. -/
def JsonObj.get (j : JsonObj) (key dflt : String) : String :=
  match alookup j.fields key with
  | some v => v
  | none => dflt

/-- A directory of JSON files: file name to parsed content. -/
abbrev FileStore : Type := List (String × JsonObj)

/-- Remove the file (all bindings) with the given name. -/
def eraseEntry {β : Type} : List (String × β) → String → List (String × β)
  | [], _ => []
  | (k, v) :: rest, name =>
      if k = name then eraseEntry rest name else (k, v) :: eraseEntry rest name

/-- Write (create or overwrite) the file with the given name. -/
def writeEntry {β : Type} (fs : List (String × β)) (name : String) (v : β) :
    List (String × β) :=
  (name, v) :: eraseEntry fs name

/-- Effect of `_git_pull` on the local store: every remotely arrived file is
written into the local directory (remote content wins for a colliding name). -/
def pullMerge (fs new : FileStore) : FileStore :=
  new.foldl (fun acc e => writeEntry acc e.1 e.2) fs

/-- Local store as visible after the pull of poll `k + m` when the store held
`fs` just before poll `k`: `viewFrom arr fs k (m+1)` is the directory contents
the `(k+m)`-th poll inspects (provided no earlier poll consumed the file). -/
def viewFrom (arr : Nat → FileStore) (fs : FileStore) (k : Nat) : Nat → FileStore
  | 0 => fs
  | m + 1 => pullMerge (viewFrom arr fs k m) (arr (k + m))

/-- `result_{task_id}.json`, from `ask_ai` line 108. -/
def resultFileName (taskId : String) : String := "result_" ++ taskId ++ ".json"

/-- `task_{task_id}.json`, from `ask_ai` line 93 / the responder's glob. -/
def taskFileName (taskId : String) : String := "task_" ++ taskId ++ ".json"

/-- The polling loop of `OracleTaskManager.ask_ai` (lines 111-136): while
elapsed time `5 * k` is below `timeout`, pull (`pullMerge fs (arr k)`), check
whether the result file exists, and on a match return
`result.get('response', '')` after `result_file.unlink()`; otherwise sleep 5 s
and repeat.  The extra `gas` argument only makes the recursion structural:
it is initialised to `timeout`, which never cuts an iteration short, because
after `timeout` iterations the elapsed time `5 * timeout` already fails the
`while` guard (for `gas = 0` both the guard and the fuel return the same
`(none, fs)`). -/
def askLoopAux (arr : Nat → FileStore) (name : String) (timeout : Nat) :
    Nat → Nat → FileStore → Option String × FileStore
  | 0, _, fs => (none, fs)
  | gas + 1, k, fs =>
    if 5 * k < timeout then
      let fs' := pullMerge fs (arr k)
      match alookup fs' name with
      | some r => (some (JsonObj.get r "response" ""), eraseEntry fs' name)
      | none => askLoopAux arr name timeout gas (k + 1) fs'
    else (none, fs)

/-- The wait-for-result phase of `ask_ai`, i.e. the spec's
`awaitResult(taskId, timeout)`: poll every 5 seconds starting at elapsed
time 0 on the current local result store. -/
def awaitResult (arr : Nat → FileStore) (taskId : String) (timeout : Nat)
    (fs : FileStore) : Option String × FileStore :=
  askLoopAux arr (resultFileName taskId) timeout timeout 0 fs

/-- `OracleTaskManager.ask_ai` after the task file is written: `push_ok` is the
boolean returned by `_git_push` (line 100).  On push failure the function
prints and returns `None` without entering the polling loop; on success it
polls via `awaitResult`.  Returns the response (or `none`) together with the
final local result store. -/
def ask_ai (push_ok : Bool) (arr : Nat → FileStore) (task_id : String)
    (timeout : Nat) (fs : FileStore) : Option String × FileStore :=
  if push_ok then awaitResult arr task_id timeout fs else (none, fs)

/-- Parsed content of a task file, as written by `ask_ai` lines 86-91. -/
structure TaskJson where
  id : String
  ai : String
  prompt : String
  timestamp : String
deriving DecidableEq

/-- The result object built by `test_responder.py` lines 17-21. -/
def responderResult (t : TaskJson) : JsonObj :=
  JsonObj.mk [("task_id", t.id),
              ("response", "WINDOWS PC RECEIVED: " ++ t.prompt),
              ("status", "success")]

/-- The responder's local copy of the queue store: the `tasks/` and `results/`
directories. -/
structure BridgeStore where
  tasks : List (String × TaskJson)
  results : FileStore
deriving DecidableEq

/-- The per-task body of the responder loop (`test_responder.py` lines 9-31),
as the sequence of store states it passes through: the state on entry, the
state after `json.dump(result, ...)` into `results/`, and the state after
`task_file.unlink()`.  The result file is written strictly before the task
file is deleted. -/
def processTaskStates (s : BridgeStore) (tname : String) (t : TaskJson) :
    List BridgeStore :=
  let s1 : BridgeStore :=
    { s with results := writeEntry s.results (resultFileName t.id) (responderResult t) }
  let s2 : BridgeStore := { s1 with tasks := eraseEntry s1.tasks tname }
  [s, s1, s2]

/-- `CHECK_INTERVAL = 30` (watcher line 48). -/
def CHECK_INTERVAL : Nat := 30

/-- `RESTART_DELAY = 10` (watcher line 49). -/
def RESTART_DELAY : Nat := 10

/-- `MAX_RESTART_ATTEMPTS = 3` (watcher line 50). -/
def MAX_RESTART_ATTEMPTS : Nat := 3

/-- Handle of the supervised `microbot.jar` process.  `alive` is whether
`poll()` returns `None`; `exits_within_grace` is whether the process exits
within the 10-second `wait(timeout=10)` window after `terminate()`. -/
structure Proc where
  pid : Nat
  alive : Bool
  exits_within_grace : Bool
deriving DecidableEq

/-- State of `MicrobotRunner`: the optional child process and its start time
(in seconds). -/
structure MicrobotRunner where
  process : Option Proc
  start_time : Option Nat
deriving DecidableEq

/-- `MicrobotRunner.is_running` (lines 125-129): `False` when no process was
launched, else whether `poll()` is `None`. -/
def MicrobotRunner.is_running (r : MicrobotRunner) : Bool :=
  match r.process with
  | none => false
  | some p => p.alive

/-- `MicrobotRunner.get_uptime` (lines 131-135): seconds since start, `0` if
never started. -/
def MicrobotRunner.get_uptime (r : MicrobotRunner) (now : Nat) : Nat :=
  match r.start_time with
  | some t => now - t
  | none => 0

/-- Observable shutdown actions issued by `MicrobotRunner.stop`. -/
inductive StopAction where
  | terminate : StopAction
  | wait : Nat → StopAction
  | kill : StopAction
deriving DecidableEq

/-- `MicrobotRunner.stop` (lines 137-147): if a process exists and is running,
send `terminate()`, `wait(timeout=10)`, and `kill()` on `TimeoutExpired`;
otherwise do nothing.  Returns the new runner state and the trace of actions
issued. -/
def MicrobotRunner.stop (r : MicrobotRunner) : MicrobotRunner × List StopAction :=
  match r.process with
  | none => (r, [])
  | some p =>
    if p.alive then
      ({ r with process := some { p with alive := false } },
        if p.exits_within_grace then
          [StopAction.terminate, StopAction.wait 10]
        else
          [StopAction.terminate, StopAction.wait 10, StopAction.kill])
    else (r, [])

/-- Issue record returned by `IssueDetector` (a Python dict with a `type`
field of `'CRASH'` or `'STUCK'` plus kind-specific context). -/
inductive Issue where
  | crash (description : String) (uptime : Nat) : Issue
  | stuck (description : String) (screenshot : String) : Issue
deriving DecidableEq

/-- The `issue['type']` string. -/
def Issue.type : Issue → String
  | .crash _ _ => "CRASH"
  | .stuck _ _ => "STUCK"

/-- A screenshot file in the watched directory: path and modification time. -/
structure Screenshot where
  path : String
  mtime : Nat
deriving DecidableEq

/-- Stable insertion into a list ascending by `mtime` (equal keys keep their
original relative order, as Python's stable `sorted` does). -/
def insertByMtime (s : Screenshot) : List Screenshot → List Screenshot
  | [] => [s]
  | t :: ts => if s.mtime ≤ t.mtime then s :: t :: ts else t :: insertByMtime s ts

/-- `sorted(SCREENSHOT_DIR.glob("*.png"), key=mtime)` (line 187). -/
def sortByMtime : List Screenshot → List Screenshot
  | [] => []
  | s :: rest => insertByMtime s (sortByMtime rest)

/-- `screenshots[-1]` guarded by the emptiness check: the most recently
modified screenshot, if any. -/
def latest_screenshot (shots : List Screenshot) : Option Screenshot :=
  (sortByMtime shots).getLast?

/-- Path of the most recently modified screenshot, if any. -/
def latestPath (shots : List Screenshot) : Option String :=
  (latest_screenshot shots).map Screenshot.path

/-- Mutable state of `IssueDetector` (lines 156-158): the latest screenshot
path seen on the previous check and the time it was first recorded as latest
(initially `None` and `0`). -/
structure IssueDetector where
  last_screenshot : Option String
  last_screenshot_time : Nat
deriving DecidableEq

/-- Detector state as built by `IssueDetector.__init__`. -/
def initDetector : IssueDetector := { last_screenshot := none, last_screenshot_time := 0 }

/-- `IssueDetector._check_screenshots` (lines 183-213): no screenshots means
no issue; if the latest screenshot equals the remembered one and `now` minus
the recorded time exceeds 300 seconds, report STUCK; if it equals the
remembered one but not for long enough, no issue and no state change;
otherwise remember the new latest path at time `now`.  Returns the issue (if
any) and the updated detector state. -/
def IssueDetector.check_screenshots (d : IssueDetector) (shots : List Screenshot)
    (now : Nat) : Option Issue × IssueDetector :=
  match latest_screenshot shots with
  | none => (none, d)
  | some latest =>
    if d.last_screenshot = some latest.path then
      if 300 < now - d.last_screenshot_time then
        (some (Issue.stuck "Bot appears stuck (same screenshot for 5+ minutes)" latest.path), d)
      else (none, d)
    else
      (none, { last_screenshot := some latest.path, last_screenshot_time := now })

/-- `IssueDetector.check_for_issues` (lines 160-181): CRASH (with uptime) the
moment the supervised process is not running, otherwise delegate to the
screenshot check. -/
def IssueDetector.check_for_issues (d : IssueDetector) (r : MicrobotRunner)
    (shots : List Screenshot) (now : Nat) : Option Issue × IssueDetector :=
  if r.is_running = false then
    (some (Issue.crash "Microbot process terminated unexpectedly" (r.get_uptime now)), d)
  else
    d.check_screenshots shots now

/-- Detector state after a sequence of screenshot checks, each observation
being the directory listing and the wall-clock time of that check. -/
def runDetector (d : IssueDetector) : List (List Screenshot × Nat) → IssueDetector
  | [] => d
  | ob :: rest => runDetector (d.check_screenshots ob.1 ob.2).2 rest

/-- Recording invariant of the detector: whenever a path `p` is remembered as
the last screenshot, the processed history splits as `pre ++ x :: post` where
`p` became the latest at check `x` (recorded at time `x.2`) and stayed the
latest at every check from `x` on. -/
def DetectorRecordInv (obs : List (List Screenshot × Nat)) (d : IssueDetector) : Prop :=
  ∀ p, d.last_screenshot = some p →
    ∃ pre x post, obs = pre ++ x :: post ∧ latestPath x.1 = some p ∧
      d.last_screenshot_time = x.2 ∧ ∀ y ∈ x :: post, latestPath y.1 = some p

/-- Caller-visible state of the orchestration loop `AutonomousWatcher.run`:
the consecutive-restart counter and whether the loop is still active (a
`break` deactivates it). -/
structure LoopState where
  restart_count : Nat
  active : Bool
deriving DecidableEq

/-- Non-deterministic inputs of one orchestration tick: the detected issue (if
any), whether `request_fix` returned a response, whether `pull_latest`
reported new code, and whether `rebuild` succeeded. -/
structure TickEnv where
  issue : Option Issue
  fix_received : Bool
  pull_ok : Bool
  rebuild_ok : Bool
deriving DecidableEq

/-- One iteration of the orchestration loop (watcher lines 394-454), returning
the new state and whether this tick escalated to the AI bridge.  On a CRASH
with `restart_count < MAX_RESTART_ATTEMPTS` the process is restarted and the
counter incremented (no escalation); otherwise the issue is escalated: no fix
or a failed rebuild terminates the loop, a successful rebuild resets the
counter to 0, and a pull that brought no new code restarts without touching
the counter. -/
def loopStep (s : LoopState) (e : TickEnv) : LoopState × Bool :=
  if s.active = false then (s, false)
  else
    match e.issue with
    | none => (s, false)
    | some issue =>
      if issue.type = "CRASH" ∧ s.restart_count < MAX_RESTART_ATTEMPTS then
        ({ s with restart_count := s.restart_count + 1 }, false)
      else if e.fix_received then
        if e.pull_ok then
          if e.rebuild_ok then ({ s with restart_count := 0 }, true)
          else ({ s with active := false }, true)
        else (s, true)
      else ({ s with active := false }, true)

/-- Loop state after a sequence of ticks. -/
def runTicks (s : LoopState) : List TickEnv → LoopState
  | [] => s
  | e :: rest => runTicks (loopStep s e).1 rest

/-- Whether any tick in the sequence escalated to the AI bridge. -/
def anyEscalation (s : LoopState) : List TickEnv → Bool
  | [] => false
  | e :: rest => (loopStep s e).2 || anyEscalation (loopStep s e).1 rest

/-- Loop state as built by `AutonomousWatcher.__init__`. -/
def initLoopState : LoopState := { restart_count := 0, active := true }

/-! ## Store lemmas -/

theorem alookup_eraseEntry_self {β : Type} (fs : List (String × β)) (name : String) :
    alookup (eraseEntry fs name) name = none := by
  induction fs with
  | nil => rfl
  | cons e rest ih =>
    obtain ⟨k, v⟩ := e
    by_cases hk : k = name
    · simpa [eraseEntry, hk] using ih
    · simpa [eraseEntry, alookup, hk] using ih

theorem alookup_eraseEntry_ne {β : Type} (fs : List (String × β)) (name key : String)
    (h : name ≠ key) : alookup (eraseEntry fs name) key = alookup fs key := by
  induction fs with
  | nil => rfl
  | cons e rest ih =>
    obtain ⟨k, v⟩ := e
    by_cases hk : k = name
    · subst hk
      simpa [eraseEntry, alookup, h] using ih
    · simp [eraseEntry, alookup, hk]
      by_cases hk2 : k = key
      · simp [hk2]
      · simpa [hk2] using ih

theorem alookup_writeEntry_self {β : Type} (fs : List (String × β)) (name : String) (v : β) :
    alookup (writeEntry fs name v) name = some v := by
  simp [writeEntry, alookup]

theorem alookup_writeEntry_ne {β : Type} (fs : List (String × β)) (name key : String) (v : β)
    (h : name ≠ key) : alookup (writeEntry fs name v) key = alookup fs key := by
  simp [writeEntry, alookup, h]
  exact alookup_eraseEntry_ne fs name key h

theorem alookup_pullMerge_none (fs new : FileStore) (name : String)
    (h1 : alookup fs name = none) (h2 : alookup new name = none) :
    alookup (pullMerge fs new) name = none := by
  induction new generalizing fs with
  | nil => simpa [pullMerge] using h1
  | cons e rest ih =>
    obtain ⟨k, v⟩ := e
    have hk : k ≠ name := by
      intro hkeq
      simp [alookup, hkeq] at h2
    have h2' : alookup rest name = none := by
      simpa [alookup, hk] using h2
    have h1' : alookup (writeEntry fs k v) name = none := by
      rw [alookup_writeEntry_ne fs k name v hk]
      exact h1
    simpa [pullMerge] using ih (writeEntry fs k v) h1' h2'

theorem viewFrom_succ (arr : Nat → FileStore) (fs : FileStore) (k m : Nat) :
    viewFrom arr (pullMerge fs (arr k)) (k + 1) m = viewFrom arr fs k (m + 1) := by
  induction m with
  | zero => rfl
  | succ m ih =>
    show pullMerge (viewFrom arr (pullMerge fs (arr k)) (k + 1) m) (arr (k + 1 + m))
        = pullMerge (viewFrom arr fs k (m + 1)) (arr (k + (m + 1)))
    rw [ih]
    have harith : k + 1 + m = k + (m + 1) := by omega
    rw [harith]

theorem alookup_viewFrom_none (arr : Nat → FileStore) (fs : FileStore) (name : String)
    (k m : Nat) (hfs : alookup fs name = none)
    (harr : ∀ j, alookup (arr j) name = none) :
    alookup (viewFrom arr fs k m) name = none := by
  induction m with
  | zero => exact hfs
  | succ m ih => exact alookup_pullMerge_none _ _ _ ih (harr (k + m))

/-! ## Polling-loop lemmas -/

theorem askLoopAux_found (arr : Nat → FileStore) (name : String) (timeout : Nat)
    (r : JsonObj) :
    ∀ (m gas k : Nat) (fs : FileStore), m < gas → 5 * (k + m) < timeout →
    (∀ j, j < m → alookup (viewFrom arr fs k (j + 1)) name = none) →
    alookup (viewFrom arr fs k (m + 1)) name = some r →
    askLoopAux arr name timeout gas k fs
      = (some (JsonObj.get r "response" ""), eraseEntry (viewFrom arr fs k (m + 1)) name) := by
  intro m
  induction m with
  | zero =>
    intro gas k fs hgas htime _ hfound
    match gas with
    | 0 => omega
    | g + 1 =>
      have h5 : 5 * k < timeout := by omega
      have hf : alookup (pullMerge fs (arr k)) name = some r := hfound
      simp only [askLoopAux, if_pos h5]
      rw [hf]
      rfl
  | succ m ih =>
    intro gas k fs hgas htime hbefore hfound
    match gas with
    | 0 => omega
    | g + 1 =>
      have h5 : 5 * k < timeout := by omega
      have hnone0 : alookup (pullMerge fs (arr k)) name = none := hbefore 0 (by omega)
      simp only [askLoopAux, if_pos h5]
      rw [hnone0]
      have hrec := ih g (k + 1) (pullMerge fs (arr k)) (by omega) (by omega)
        (fun j hj => by
          rw [viewFrom_succ]
          exact hbefore (j + 1) (by omega))
        (by rw [viewFrom_succ]; exact hfound)
      rw [hrec, viewFrom_succ]

theorem askLoopAux_none_of_views (arr : Nat → FileStore) (name : String) (timeout : Nat) :
    ∀ (gas k : Nat) (fs : FileStore),
    (∀ j, 5 * (k + j) < timeout → alookup (viewFrom arr fs k (j + 1)) name = none) →
    (askLoopAux arr name timeout gas k fs).1 = none := by
  intro gas
  induction gas with
  | zero => intro k fs _; rfl
  | succ g ih =>
    intro k fs hviews
    by_cases h5 : 5 * k < timeout
    · have hnone0 : alookup (pullMerge fs (arr k)) name = none :=
        hviews 0 (by omega)
      simp only [askLoopAux, if_pos h5]
      rw [hnone0]
      exact ih (k + 1) (pullMerge fs (arr k)) (fun j hj => by
        rw [viewFrom_succ]
        exact hviews (j + 1) (by omega))
    · simp only [askLoopAux, if_neg h5]

theorem askLoopAux_none_of_arrivals (arr : Nat → FileStore) (name : String) (timeout : Nat)
    (gas k : Nat) (fs : FileStore) (hfs : alookup fs name = none)
    (harr : ∀ j, alookup (arr j) name = none) :
    (askLoopAux arr name timeout gas k fs).1 = none := by
  apply askLoopAux_none_of_views
  intro j _
  exact alookup_viewFrom_none arr fs name k (j + 1) hfs harr

theorem askLoopAux_expired (arr : Nat → FileStore) (name : String) (timeout : Nat)
    (gas k : Nat) (fs : FileStore) (h : timeout ≤ 5 * k) :
    askLoopAux arr name timeout gas k fs = (none, fs) := by
  match gas with
  | 0 => rfl
  | g + 1 =>
    have h5 : ¬ 5 * k < timeout := by omega
    simp only [askLoopAux, if_neg h5]

/-! ## Claims about the Task Exchange Client -/

/-- C1: if a result file for task `tid` is visible (after the inbound pull) at
some poll of the waiting loop — at poll `m`, before the elapsed time reaches
`timeout`, and not earlier — then `ask_ai` returns that file's response text
and deletes the file: the final store no longer contains it, and a second call
for the same task (with no new arrival of that file) returns `none`
(destructive, exactly-once consumption). -/
theorem ask_ai_consumes_result_exactly_once
    (arr : Nat → FileStore) (tid : String) (timeout : Nat) (fs : FileStore)
    (m : Nat) (r : JsonObj)
    (htime : 5 * m < timeout)
    (hbefore : ∀ j, j < m → alookup (viewFrom arr fs 0 (j + 1)) (resultFileName tid) = none)
    (hfound : alookup (viewFrom arr fs 0 (m + 1)) (resultFileName tid) = some r) :
    ask_ai true arr tid timeout fs
      = (some (JsonObj.get r "response" ""),
         eraseEntry (viewFrom arr fs 0 (m + 1)) (resultFileName tid))
    ∧ alookup (eraseEntry (viewFrom arr fs 0 (m + 1)) (resultFileName tid))
        (resultFileName tid) = none
    ∧ ∀ (arr2 : Nat → FileStore) (timeout2 : Nat),
        (∀ j, alookup (arr2 j) (resultFileName tid) = none) →
        (ask_ai true arr2 tid timeout2
          (eraseEntry (viewFrom arr fs 0 (m + 1)) (resultFileName tid))).1 = none := by
  refine ⟨?_, alookup_eraseEntry_self _ _, ?_⟩
  · show askLoopAux arr (resultFileName tid) timeout timeout 0 fs = _
    exact askLoopAux_found arr (resultFileName tid) timeout r m timeout 0 fs
      (by omega) (by omega) hbefore hfound
  · intro arr2 timeout2 harr2
    show (askLoopAux arr2 (resultFileName tid) timeout2 timeout2 0 _).1 = none
    exact askLoopAux_none_of_arrivals arr2 (resultFileName tid) timeout2 timeout2 0 _
      (alookup_eraseEntry_self _ _) harr2

/-- Witness for C1: a result for task `t1` visible at the first poll is
returned and consumed, leaving an empty store. -/
theorem ask_ai_consumes_result_exactly_once_witness :
    ask_ai true (fun _ => [("result_t1.json", JsonObj.mk [("response", "hello")])])
        "t1" 120 [] = (some "hello", []) := by
  have h := ask_ai_consumes_result_exactly_once
    (fun _ => [("result_t1.json", JsonObj.mk [("response", "hello")])]) "t1" 120 [] 0
    (JsonObj.mk [("response", "hello")]) (by omega)
    (fun j hj => absurd hj (Nat.not_lt_zero j)) (by decide)
  exact h.1.trans (by decide)

/-- C4: if no matching result file is visible at any poll within `timeout`
seconds, `ask_ai` returns `None`; moreover the polling loop exits immediately
once the elapsed time has reached `timeout` (and it is a total function, so it
never retries indefinitely). -/
theorem ask_ai_timeout_returns_none
    (arr : Nat → FileStore) (tid : String) (timeout : Nat) (fs : FileStore)
    (hnone : ∀ k, 5 * k < timeout →
      alookup (viewFrom arr fs 0 (k + 1)) (resultFileName tid) = none) :
    (ask_ai true arr tid timeout fs).1 = none
    ∧ ∀ (gas k : Nat) (fs2 : FileStore), timeout ≤ 5 * k →
        askLoopAux arr (resultFileName tid) timeout gas k fs2 = (none, fs2) := by
  constructor
  · show (askLoopAux arr (resultFileName tid) timeout timeout 0 fs).1 = none
    apply askLoopAux_none_of_views
    intro j hj
    apply hnone j
    omega
  · intro gas k fs2 h
    exact askLoopAux_expired arr _ timeout gas k fs2 h

/-- Witness for C4: with no result ever arriving and `timeout = 5`, the call
returns `none`. -/
theorem ask_ai_timeout_returns_none_witness :
    (ask_ai true (fun _ => []) "t4" 5 []).1 = none := by
  have h := ask_ai_timeout_returns_none (fun _ => []) "t4" 5 []
    (fun k hk => by
      have hk0 : k = 0 := by omega
      subst hk0
      decide)
  exact h.1

/-- C9: the waiting loop matches a result purely by the file name
`result_<taskId>.json` and validates nothing about its content: a JSON object
with arbitrary fields (e.g. a mismatched embedded identifier) is accepted, and
when the object lacks a `response` field the call returns the empty string
rather than `None`. -/
theorem result_matched_by_name_only
    (fields : List (String × String)) (arr : Nat → FileStore) (tid : String)
    (timeout : Nat) (fs : FileStore)
    (h0 : 0 < timeout)
    (hfound : alookup (pullMerge fs (arr 0)) (resultFileName tid)
        = some (JsonObj.mk fields)) :
    (ask_ai true arr tid timeout fs).1
        = some (JsonObj.get (JsonObj.mk fields) "response" "")
    ∧ (alookup fields "response" = none → (ask_ai true arr tid timeout fs).1 = some "") := by
  have hmain : ask_ai true arr tid timeout fs
      = (some (JsonObj.get (JsonObj.mk fields) "response" ""),
         eraseEntry (viewFrom arr fs 0 1) (resultFileName tid)) := by
    show askLoopAux arr (resultFileName tid) timeout timeout 0 fs = _
    exact askLoopAux_found arr (resultFileName tid) timeout (JsonObj.mk fields) 0 timeout 0 fs
      (by omega) (by omega) (fun j hj => absurd hj (Nat.not_lt_zero j)) hfound
  constructor
  · rw [hmain]
  · intro hresp
    rw [hmain]
    simp [JsonObj.get, hresp]

/-- Witness for C9: a stray result whose only field is a mismatched `task_id`
is consumed and yields the empty string. -/
theorem result_matched_by_name_only_witness :
    (ask_ai true (fun _ => [("result_t9.json", JsonObj.mk [("task_id", "zzz")])])
        "t9" 120 []).1 = some "" := by
  have h := result_matched_by_name_only [("task_id", "zzz")]
    (fun _ => [("result_t9.json", JsonObj.mk [("task_id", "zzz")])]) "t9" 120 []
    (by omega) (by decide)
  exact h.2 (by decide)

/-- Counterexample to C5: when the outward push fails, `ask_ai` returns the
very same value as a run that pushed successfully and timed out — `None` with
an untouched store — so the publish failure is not surfaced to the caller as
an outcome distinct from the others (there is no `PublishError`). -/
theorem push_failure_indistinguishable_from_timeout :
    ask_ai false (fun _ => []) "abc" 120 []
      = ask_ai true (fun _ => []) "abc" 120 []
    ∧ ask_ai false (fun _ => []) "abc" 120 [] = (none, []) := by
  decide

/-- C5 as amended: when `_git_push` fails, `ask_ai` reports the failure only
by printing, returns `None` immediately, and does not proceed to poll for a
result (the local result store is left untouched); the `None` return value is
not distinguishable from the timeout outcome. -/
theorem push_failure_returns_none_without_polling
    (arr : Nat → FileStore) (tid : String) (timeout : Nat) (fs : FileStore) :
    ask_ai false arr tid timeout fs = (none, fs) := rfl

/-! ## Claims about the Process Supervisor and Issue Detector -/

/-- C6: for every supervisor state, `stop()` leaves `is_running` false; and
whenever a live process exists it performs the two-phase shutdown — graceful
`terminate`, a bounded 10-second grace wait, and a forced `kill` exactly when
the process did not exit within the grace window. -/
theorem stop_two_phase_shutdown (r : MicrobotRunner) :
    (r.stop).1.is_running = false
    ∧ (∀ p, r.process = some p → p.alive = true →
        (r.stop).2 = if p.exits_within_grace then
            [StopAction.terminate, StopAction.wait 10]
          else [StopAction.terminate, StopAction.wait 10, StopAction.kill])
    ∧ (∀ p, r.process = some p → p.alive = true → p.exits_within_grace = false →
        StopAction.kill ∈ (r.stop).2) := by
  refine ⟨?_, ?_, ?_⟩
  · cases hp : r.process with
    | none => simp [MicrobotRunner.stop, MicrobotRunner.is_running, hp]
    | some p =>
      cases hal : p.alive with
      | true => simp [MicrobotRunner.stop, MicrobotRunner.is_running, hp, hal]
      | false => simp [MicrobotRunner.stop, MicrobotRunner.is_running, hp, hal]
  · intro p hp hal
    simp [MicrobotRunner.stop, hp, hal]
  · intro p hp hal hg
    simp [MicrobotRunner.stop, hp, hal, hg]

/-- Witness for C6: stopping an unresponsive live process issues terminate,
the 10-second wait, then kill, and `is_running` is false afterwards. -/
theorem stop_two_phase_shutdown_witness :
    (MicrobotRunner.stop ⟨some ⟨123, true, false⟩, some 50⟩).1.is_running = false
    ∧ (MicrobotRunner.stop ⟨some ⟨123, true, false⟩, some 50⟩).2
        = [StopAction.terminate, StopAction.wait 10, StopAction.kill] := by
  refine ⟨(stop_two_phase_shutdown _).1, ?_⟩
  have h := (stop_two_phase_shutdown ⟨some ⟨123, true, false⟩, some 50⟩).2.1
    ⟨123, true, false⟩ rfl rfl
  simpa using h

/-- C7: whenever the supervised process is not running, `check_for_issues`
returns a CRASH issue carrying the uptime at crash, for every screenshot
directory state, and leaves the detector state untouched (the screenshot
check is not consulted). -/
theorem crash_priority_over_screenshots
    (d : IssueDetector) (r : MicrobotRunner) (shots : List Screenshot) (now : Nat)
    (h : r.is_running = false) :
    d.check_for_issues r shots now
      = (some (Issue.crash "Microbot process terminated unexpectedly" (r.get_uptime now)),
         d) := by
  simp [IssueDetector.check_for_issues, h]

/-- Witness for C7: a crashed process (started at 50, checked at 250) yields
CRASH with uptime 200 even though a screenshot is present. -/
theorem crash_priority_over_screenshots_witness :
    IssueDetector.check_for_issues initDetector ⟨some ⟨7, false, true⟩, some 50⟩
        [⟨"x.png", 3⟩] 250
      = (some (Issue.crash "Microbot process terminated unexpectedly" 200), initDetector) := by
  have h := crash_priority_over_screenshots initDetector ⟨some ⟨7, false, true⟩, some 50⟩
    [⟨"x.png", 3⟩] 250 rfl
  exact h.trans (by decide)

/-- C8: when the supervised process is running and the screenshot directory is
empty, the detector reports no issue (warm-up, never STUCK) and leaves its
state untouched. -/
theorem no_screenshots_no_issue
    (d : IssueDetector) (r : MicrobotRunner) (now : Nat)
    (h : r.is_running = true) :
    d.check_for_issues r [] now = (none, d) := by
  simp [IssueDetector.check_for_issues, h, IssueDetector.check_screenshots,
    latest_screenshot, sortByMtime]

/-- Witness for C8: a running process with an empty screenshot directory. -/
theorem no_screenshots_no_issue_witness :
    IssueDetector.check_for_issues initDetector ⟨some ⟨7, true, true⟩, some 50⟩ [] 250
      = (none, initDetector) :=
  no_screenshots_no_issue initDetector ⟨some ⟨7, true, true⟩, some 50⟩ 250 rfl

/-! ## Claims about the STUCK threshold -/

theorem check_screenshots_stuck_inv (d : IssueDetector) (shots : List Screenshot)
    (now : Nat) (desc p : String)
    (h : (d.check_screenshots shots now).1 = some (Issue.stuck desc p)) :
    latestPath shots = some p ∧ d.last_screenshot = some p ∧
      300 < now - d.last_screenshot_time := by
  cases hl : latest_screenshot shots with
  | none => simp [IssueDetector.check_screenshots, hl] at h
  | some s =>
    by_cases hsame : d.last_screenshot = some s.path
    · by_cases ht : 300 < now - d.last_screenshot_time
      · simp only [IssueDetector.check_screenshots, hl, if_pos hsame, if_pos ht] at h
        simp at h
        obtain ⟨hdesc, hpath⟩ := h
        refine ⟨?_, ?_, ht⟩
        · simp [latestPath, hl, hpath]
        · rw [hsame, hpath]
      · simp [IssueDetector.check_screenshots, hl, if_pos hsame, if_neg ht] at h
    · simp [IssueDetector.check_screenshots, hl, if_neg hsame] at h

theorem detectorRecordInv_step (obs : List (List Screenshot × Nat)) (d : IssueDetector)
    (shots : List Screenshot) (now : Nat)
    (hinv : DetectorRecordInv obs d) (hne : latestPath shots ≠ none) :
    DetectorRecordInv (obs ++ [(shots, now)]) (d.check_screenshots shots now).2 := by
  cases hl : latest_screenshot shots with
  | none => exact absurd (by simp [latestPath, hl]) hne
  | some s =>
    by_cases hsame : d.last_screenshot = some s.path
    · have h2 : (d.check_screenshots shots now).2 = d := by
        simp only [IssueDetector.check_screenshots, hl, if_pos hsame]
        split <;> rfl
      rw [h2]
      intro p hp
      obtain ⟨pre, x, post, hobs, hx, htime, hall⟩ := hinv p hp
      refine ⟨pre, x, post ++ [(shots, now)], by rw [hobs]; simp, hx, htime, ?_⟩
      intro y hy
      rcases List.mem_cons.mp hy with hy | hy
      · exact hall y (by simp [hy])
      · rcases List.mem_append.mp hy with hy | hy
        · exact hall y (by simp [hy])
        · have hys : y = (shots, now) := by simpa using hy
          subst hys
          have hps : p = s.path := by
            rw [hp] at hsame
            exact Option.some.inj hsame
          simp [latestPath, hl, hps]
    · have h2 : (d.check_screenshots shots now).2
          = { last_screenshot := some s.path, last_screenshot_time := now } := by
        simp only [IssueDetector.check_screenshots, hl, if_neg hsame]
      rw [h2]
      intro p hp
      have hps : s.path = p := by
        simpa using hp
      refine ⟨obs, (shots, now), [], by simp, by simp [latestPath, hl, hps], rfl, ?_⟩
      intro y hy
      have hys : y = (shots, now) := by simpa using hy
      subst hys
      simp [latestPath, hl, hps]

theorem detectorRecordInv_run (obs : List (List Screenshot × Nat)) :
    ∀ (hist : List (List Screenshot × Nat)) (d : IssueDetector),
    DetectorRecordInv hist d → (∀ o ∈ obs, latestPath o.1 ≠ none) →
    DetectorRecordInv (hist ++ obs) (runDetector d obs) := by
  induction obs with
  | nil =>
    intro hist d hinv _
    simpa [runDetector] using hinv
  | cons ob rest ih =>
    obtain ⟨shots, now⟩ := ob
    intro hist d hinv hne
    have hstep := detectorRecordInv_step hist d shots now hinv (hne (shots, now) (by simp))
    have hrest := ih (hist ++ [(shots, now)]) (d.check_screenshots shots now).2 hstep
      (fun o ho => hne o (by simp [ho]))
    simpa [runDetector, List.append_assoc] using hrest

/-- C3: over any sequence of checks in which every check observed at least one
screenshot, a STUCK report at the current check implies: the current latest
screenshot is the remembered path `p`; the elapsed time since `p` was recorded
strictly exceeds the 300-second threshold (in particular it is at least 300);
and the history splits around the check at which `p` was first recorded as
latest (at exactly the remembered time), with `p` remaining the latest
screenshot at every check from that point on. -/
theorem stuck_requires_threshold_persistence
    (obs : List (List Screenshot × Nat)) (d : IssueDetector)
    (shots : List Screenshot) (now : Nat) (desc p : String)
    (hd : d = runDetector initDetector obs)
    (hne : ∀ o ∈ obs, latestPath o.1 ≠ none)
    (hstuck : (d.check_screenshots shots now).1 = some (Issue.stuck desc p)) :
    latestPath shots = some p
    ∧ d.last_screenshot = some p
    ∧ d.last_screenshot_time + 300 < now
    ∧ d.last_screenshot_time + 300 ≤ now
    ∧ ∃ pre x post, obs = pre ++ x :: post ∧ latestPath x.1 = some p
        ∧ d.last_screenshot_time = x.2
        ∧ ∀ y ∈ x :: post, latestPath y.1 = some p := by
  obtain ⟨h1, h2, h3⟩ := check_screenshots_stuck_inv d shots now desc p hstuck
  have h3' : d.last_screenshot_time + 300 < now := by omega
  have hinv : DetectorRecordInv obs d := by
    rw [hd]
    have hbase : DetectorRecordInv [] initDetector := by
      intro q hq
      simp [initDetector] at hq
    simpa using detectorRecordInv_run obs [] initDetector hbase hne
  obtain ⟨pre, x, post, hobs, hx, ht, hall⟩ := hinv p h2
  exact ⟨h1, h2, h3', le_of_lt h3', pre, x, post, hobs, hx, ht, hall⟩

/-- Witness for C3: the same single screenshot observed at time 0 and checked
again at time 301 yields STUCK, with the recorded time 0 satisfying
`0 + 300 < 301`. -/
theorem stuck_requires_threshold_persistence_witness :
    latestPath [Screenshot.mk "a.png" 1] = some "a.png"
    ∧ (runDetector initDetector [([Screenshot.mk "a.png" 1], 0)]).last_screenshot
        = some "a.png"
    ∧ (runDetector initDetector [([Screenshot.mk "a.png" 1], 0)]).last_screenshot_time + 300
        < 301 := by
  have h := stuck_requires_threshold_persistence [([Screenshot.mk "a.png" 1], 0)]
    (runDetector initDetector [([Screenshot.mk "a.png" 1], 0)])
    [Screenshot.mk "a.png" 1] 301
    "Bot appears stuck (same screenshot for 5+ minutes)" "a.png"
    rfl (by decide) (by decide)
  exact ⟨h.1, h.2.1, h.2.2.1⟩

/-! ## Claims about the Orchestration Loop -/

theorem runTicks_crash (es : List TickEnv) :
    ∀ (s : LoopState), s.active = true →
    (∀ e ∈ es, (e.issue.map Issue.type) = some "CRASH") →
    s.restart_count + es.length ≤ MAX_RESTART_ATTEMPTS →
    runTicks s es = { restart_count := s.restart_count + es.length, active := true }
    ∧ anyEscalation s es = false := by
  induction es with
  | nil =>
    intro s hact _ _
    obtain ⟨c, a⟩ := s
    subst hact
    exact ⟨rfl, rfl⟩
  | cons e rest ih =>
    intro s hact hcrash hlen
    have he := hcrash e (by simp)
    cases hei : e.issue with
    | none => simp [hei] at he
    | some i =>
      have hi : i.type = "CRASH" := by simpa [hei] using he
      have hlt : s.restart_count < MAX_RESTART_ATTEMPTS := by
        simp at hlen
        omega
      have hstep : loopStep s e = ({ s with restart_count := s.restart_count + 1 }, false) := by
        simp [loopStep, hact, hei, hi, hlt]
      have hrest := ih { s with restart_count := s.restart_count + 1 } (by simp [hact])
        (fun e' he' => hcrash e' (by simp [he'])) (by simp at hlen ⊢; omega)
      constructor
      · show runTicks (loopStep s e).1 rest = _
        rw [hstep, hrest.1]
        simp at hlen ⊢
        omega
      · show ((loopStep s e).2 || anyEscalation (loopStep s e).1 rest) = false
        rw [hstep]
        simpa using hrest.2

/-- C2: from the fresh loop state, any sequence of up to
`MAX_RESTART_ATTEMPTS` consecutive CRASH ticks is handled by automatic
restarts — the counter is incremented on each tick and no tick escalates;
a CRASH tick while the counter is below the bound always increments it
without escalating; once the counter has reached `MAX_RESTART_ATTEMPTS`, the
next CRASH tick escalates; and a tick can only bring the counter back to 0
when it escalates and the fix, pull and rebuild all succeed (a successful
rebuild). -/
theorem watcher_restart_policy :
    (∀ (es : List TickEnv), (∀ e ∈ es, (e.issue.map Issue.type) = some "CRASH") →
      es.length ≤ MAX_RESTART_ATTEMPTS →
      runTicks initLoopState es = { restart_count := es.length, active := true }
        ∧ anyEscalation initLoopState es = false)
    ∧ (∀ (s : LoopState) (e : TickEnv), s.active = true →
        s.restart_count < MAX_RESTART_ATTEMPTS → (e.issue.map Issue.type) = some "CRASH" →
        loopStep s e = ({ s with restart_count := s.restart_count + 1 }, false))
    ∧ (∀ (e : TickEnv), (e.issue.map Issue.type) = some "CRASH" →
        (loopStep { restart_count := MAX_RESTART_ATTEMPTS, active := true } e).2 = true)
    ∧ (∀ (s : LoopState) (e : TickEnv), s.active = true →
        (loopStep s e).1.restart_count = 0 →
        s.restart_count = 0
        ∨ ((loopStep s e).2 = true ∧ e.fix_received = true ∧ e.pull_ok = true
            ∧ e.rebuild_ok = true ∧ (loopStep s e).1 = { s with restart_count := 0 })) := by
  refine ⟨?_, ?_, ?_, ?_⟩
  · intro es hcrash hlen
    have h := runTicks_crash es initLoopState rfl hcrash (by simpa [initLoopState] using hlen)
    refine ⟨h.1.trans ?_, h.2⟩
    simp [initLoopState]
  · intro s e hact hlt he
    cases hei : e.issue with
    | none => simp [hei] at he
    | some i =>
      have hi : i.type = "CRASH" := by simpa [hei] using he
      simp [loopStep, hact, hei, hi, hlt]
  · intro e he
    cases hei : e.issue with
    | none => simp [hei] at he
    | some i =>
      have hi : i.type = "CRASH" := by simpa [hei] using he
      simp only [loopStep, hei, hi, MAX_RESTART_ATTEMPTS]
      norm_num
      split_ifs <;> rfl
  · intro s e hact h0
    cases hei : e.issue with
    | none =>
      left
      simpa [loopStep, hact, hei] using h0
    | some i =>
      by_cases hcr : i.type = "CRASH" ∧ s.restart_count < MAX_RESTART_ATTEMPTS
      · have hc : (loopStep s e).1.restart_count = s.restart_count + 1 := by
          simp [loopStep, hact, hei, hcr]
        rw [hc] at h0
        omega
      · by_cases hfix : e.fix_received = true
        · by_cases hpull : e.pull_ok = true
          · by_cases hreb : e.rebuild_ok = true
            · right
              have hstep : loopStep s e = ({ s with restart_count := 0 }, true) := by
                simp [loopStep, hact, hei, hcr, hfix, hpull, hreb]
              exact ⟨by rw [hstep], hfix, hpull, hreb, by rw [hstep]⟩
            · left
              have hc : (loopStep s e).1.restart_count = s.restart_count := by
                simp [loopStep, hact, hei, hcr, hfix, hpull, hreb]
              rw [hc] at h0
              exact h0
          · left
            have hc : (loopStep s e).1.restart_count = s.restart_count := by
              simp [loopStep, hact, hei, hcr, hfix, hpull]
            rw [hc] at h0
            exact h0
        · left
          have hc : (loopStep s e).1.restart_count = s.restart_count := by
            simp [loopStep, hact, hei, hcr, hfix]
          rw [hc] at h0
          exact h0

/-- Witness for C2: three consecutive CRASH ticks auto-restart without
escalation and leave the counter at 3; the fourth CRASH tick escalates. -/
theorem watcher_restart_policy_witness :
    runTicks initLoopState
        [TickEnv.mk (some (Issue.crash "d" 5)) false false false,
         TickEnv.mk (some (Issue.crash "d" 5)) false false false,
         TickEnv.mk (some (Issue.crash "d" 5)) false false false]
      = { restart_count := 3, active := true }
    ∧ anyEscalation initLoopState
        [TickEnv.mk (some (Issue.crash "d" 5)) false false false,
         TickEnv.mk (some (Issue.crash "d" 5)) false false false,
         TickEnv.mk (some (Issue.crash "d" 5)) false false false] = false
    ∧ (loopStep { restart_count := 3, active := true }
        (TickEnv.mk (some (Issue.crash "d" 5)) false false false)).2 = true := by
  have h1 := watcher_restart_policy.1
    [TickEnv.mk (some (Issue.crash "d" 5)) false false false,
     TickEnv.mk (some (Issue.crash "d" 5)) false false false,
     TickEnv.mk (some (Issue.crash "d" 5)) false false false]
    (by decide) (by decide)
  have h3 := watcher_restart_policy.2.2.1
    (TickEnv.mk (some (Issue.crash "d" 5)) false false false) (by decide)
  exact ⟨h1.1, h1.2, h3⟩

/-! ## Claim about the Remote Responder -/

/-- C10: when the responder processes a task file, the matching result file is
written before the consumed task file is deleted: every intermediate store
state contains the task file or its result file (or both); the final state
contains the result and no longer contains the task; and no previously
present result file is ever removed. -/
theorem responder_writes_result_before_deleting_task
    (s : BridgeStore) (tname : String) (t : TaskJson)
    (hmem : alookup s.tasks tname = some t) :
    (∀ st ∈ processTaskStates s tname t,
      alookup st.tasks tname ≠ none ∨ alookup st.results (resultFileName t.id) ≠ none)
    ∧ alookup ((processTaskStates s tname t).getD 2 s).results (resultFileName t.id)
        = some (responderResult t)
    ∧ alookup ((processTaskStates s tname t).getD 2 s).tasks tname = none
    ∧ (∀ st ∈ processTaskStates s tname t, ∀ rname v,
        alookup s.results rname = some v → alookup st.results rname ≠ none) := by
  refine ⟨?_, ?_, ?_, ?_⟩
  · intro st hst
    simp only [processTaskStates, List.mem_cons, List.not_mem_nil, or_false] at hst
    rcases hst with h | h | h
    · left
      rw [h, hmem]
      simp
    · left
      rw [h, hmem]
      simp
    · right
      rw [h]
      rw [alookup_writeEntry_self]
      simp
  · simp only [processTaskStates, List.getD]
    simpa using alookup_writeEntry_self s.results (resultFileName t.id) (responderResult t)
  · simp only [processTaskStates, List.getD]
    simpa using alookup_eraseEntry_self s.tasks tname
  · intro st hst rname v hv
    simp only [processTaskStates, List.mem_cons, List.not_mem_nil, or_false] at hst
    have hres : alookup (writeEntry s.results (resultFileName t.id) (responderResult t))
        rname ≠ none := by
      by_cases hn : resultFileName t.id = rname
      · subst hn
        rw [alookup_writeEntry_self]
        simp
      · rw [alookup_writeEntry_ne _ _ _ _ hn, hv]
        simp
    rcases hst with h | h | h
    · rw [h, hv]
      simp
    · rw [h]
      exact hres
    · rw [h]
      exact hres

/-- Witness for C10: after processing a concrete task, the result file exists
and the task file is gone. -/
theorem responder_writes_result_before_deleting_task_witness :
    alookup ((processTaskStates
        (BridgeStore.mk [("task_ab.json", TaskJson.mk "ab" "claude" "hi" "ts")] [])
        "task_ab.json" (TaskJson.mk "ab" "claude" "hi" "ts")).getD 2
          (BridgeStore.mk [("task_ab.json", TaskJson.mk "ab" "claude" "hi" "ts")] [])).results
      (resultFileName "ab") = some (responderResult (TaskJson.mk "ab" "claude" "hi" "ts"))
    ∧ alookup ((processTaskStates
        (BridgeStore.mk [("task_ab.json", TaskJson.mk "ab" "claude" "hi" "ts")] [])
        "task_ab.json" (TaskJson.mk "ab" "claude" "hi" "ts")).getD 2
          (BridgeStore.mk [("task_ab.json", TaskJson.mk "ab" "claude" "hi" "ts")] [])).tasks
      "task_ab.json" = none := by
  have h := responder_writes_result_before_deleting_task
    (BridgeStore.mk [("task_ab.json", TaskJson.mk "ab" "claude" "hi" "ts")] [])
    "task_ab.json" (TaskJson.mk "ab" "claude" "hi" "ts") (by decide)
  exact ⟨h.2.1, h.2.2.1⟩

/-- Counterexample to C3 as stated: the claim quantifies over any sequence of
checks, but the code reports STUCK even when the path did not remain the
latest screenshot throughout.  Concretely, with `a.png` the latest at the
check at t = 0, an empty directory at the check at t = 100 (which leaves the
detector state untouched), and `a.png` the latest again at t = 301, the
detector returns STUCK — although at the middle check there was no latest
screenshot at all, so the same path did not remain the latest over the
sequence of checks. -/
theorem stuck_reported_despite_gap_in_latest :
    ((runDetector initDetector
        [([Screenshot.mk "a.png" 1], 0), (([] : List Screenshot), 100)]).check_screenshots
        [Screenshot.mk "a.png" 1] 301).1
      = some (Issue.stuck "Bot appears stuck (same screenshot for 5+ minutes)" "a.png")
    ∧ latestPath ([] : List Screenshot) = none := by
  decide
